import Mathlib

/-!
Shallow embedding of `src/keycloak/adapter.ts` (class `RNAdapter`).

The adapter is glue code between three collaborators: a Keycloak protocol
client, an in-app browser, and the platform facilities (generic URL opener,
HTTP fetch).  Each asynchronous operation is modelled as a pure function of
an environment record describing how the collaborators would respond; the
function returns the operation's outcome (`Except Thrown Unit`-style) paired
with the ordered trace of collaborator calls it performed.

JavaScript conventions are modelled explicitly: a `string | undefined` value
is `Option String`; JS truthiness of such a value is `jsTruthy`; a thrown JS
value is `Thrown` (an `Error` object carrying a message, or a plain string,
which is not `instanceof Error`); `String.prototype.replace` with a string
pattern replaces only the first occurrence (`replaceFirst`).
-/

deriving instance DecidableEq for Except

namespace RNKeycloak

/-- JS truthiness of a `string | undefined` value: `undefined` and the empty
string are falsy, every other string is truthy. -/
def jsTruthy : Option String → Bool
  | none => false
  | some s => !(s == "")

/-- A thrown JS value: either an `Error` object carrying a `.message`, or a
plain thrown string (which is not `instanceof Error`). -/
inductive Thrown where
  | error (msg : String)
  | plainStr (s : String)
deriving DecidableEq, Repr

/-- Result of `InAppBrowser.openAuth`: a `type` tag (`success`, `cancel`,
`dismiss`, ...) and an optional final `url`. -/
structure BrowserResult where
  type : String
  url : Option String
deriving DecidableEq, Repr

/-- One observable collaborator call made by the adapter, in program order. -/
inductive Event where
  | createLoginUrl
  | createRegisterUrl
  | createLogoutUrl
  | createAccountUrl
  | isAvailable
  | openAuth (url : String) (redirectUri : Option String)
  | openPlain (url : String)
  | openURL (url : String)
  | parseCallback (url : String)
  | processCallback (oauth : Nat)
  | clearToken
  | httpRequest (method url contentType body : String)
deriving DecidableEq, Repr

/-- Collect the URLs handed to any browser-opening or URL-opening
collaborator call (`openAuth`, `InAppBrowser.open`, `Linking.openURL`). -/
def openedUrls : List Event → List String
  | [] => []
  | Event.openAuth u _ :: es => u :: openedUrls es
  | Event.openPlain u :: es => u :: openedUrls es
  | Event.openURL u :: es => u :: openedUrls es
  | _ :: es => openedUrls es

/-- JS `String.prototype.replace` with a string pattern, on character lists:
replace only the first occurrence of `pat` by `rep`. -/
def replaceFirst (pat rep : List Char) : List Char → List Char
  | [] => if pat.isEmpty then rep else []
  | c :: cs =>
    if pat.isPrefixOf (c :: cs) then rep ++ List.drop pat.length (c :: cs)
    else c :: replaceFirst pat rep cs

/-- JS `String.prototype.replace` with a string pattern, on strings. -/
def replaceFirstStr (s pat rep : String) : String :=
  String.mk (replaceFirst pat.data rep.data s.data)

/-- The logout-URL rewrite of `RNAdapter.logout` (adapter.ts line 83):
`logoutUrl.replace('redirect_uri', 'post_logout_redirect_uri')
 + '&id_token_hint=' + this.client.idToken`. -/
def rewriteLogoutUrl (logoutUrl idToken : String) : String :=
  replaceFirstStr logoutUrl "redirect_uri" "post_logout_redirect_uri"
    ++ "&id_token_hint=" ++ idToken

/-- The fields of the protocol client that `logout` reads. -/
structure LogoutClient where
  idToken : Option String
  redirectUri : Option String
deriving DecidableEq, Repr

/-- Environment for one `logout` call: presence and fields of the protocol
client, the value `createLogoutUrl(options)` would return, and how the
in-app browser and the generic URL opener would respond. -/
structure LogoutEnv where
  client : Option LogoutClient
  createLogoutUrl : Option String
  isAvailable : Bool
  openAuth : Except Thrown BrowserResult
  openURL : Except Thrown Unit

/-- JS `a || b` on `string | undefined` values (`options?.redirectUri ||
this.client.redirectUri!`). -/
def jsOrVal (a b : Option String) : Option String :=
  if jsTruthy a then a else b

/-- Body of the `try` block of `RNAdapter.logout` (adapter.ts lines 74-98),
before the `catch` re-wrap.  `optRedirect` is `options?.redirectUri`. -/
def logoutInner (env : LogoutEnv) (optRedirect : Option String) :
    Except Thrown Unit × List Event :=
  match env.client with
  | none => (Except.error (Thrown.error "Keycloak instance or ID token is missing."), [])
  | some client =>
    if !(jsTruthy client.idToken) then
      (Except.error (Thrown.error "Keycloak instance or ID token is missing."), [])
    else if !(jsTruthy env.createLogoutUrl) then
      (Except.error (Thrown.error "Unable to create logout URL."), [Event.createLogoutUrl])
    else
      let logoutUrl :=
        rewriteLogoutUrl (env.createLogoutUrl.getD "") (client.idToken.getD "")
      if env.isAvailable then
        let tr := [Event.createLogoutUrl, Event.isAvailable,
          Event.openAuth logoutUrl (jsOrVal optRedirect client.redirectUri)]
        match env.openAuth with
        | Except.error t => (Except.error t, tr)
        | Except.ok result =>
          if result.type == "success" then
            (Except.ok (), tr ++ [Event.clearToken])
          else if result.type == "cancel" || result.type == "dismiss" then
            (Except.error (Thrown.error "User has closed the browser"), tr)
          else
            (Except.error (Thrown.error "Logout process failed in InAppBrowser."), tr)
      else
        let tr := [Event.createLogoutUrl, Event.isAvailable, Event.openURL logoutUrl]
        match env.openURL with
        | Except.error t => (Except.error t, tr)
        | Except.ok _ => (Except.ok (), tr ++ [Event.clearToken])

/-- The `catch` clause of `RNAdapter.logout` (adapter.ts lines 99-105):
an `Error` is re-wrapped with its message, anything else becomes the
generic unknown-error message. -/
def wrapLogoutError : Thrown → Thrown
  | Thrown.error m => Thrown.error ("Logout process failed: " ++ m)
  | Thrown.plainStr _ => Thrown.error "An unknown error occurred during logout."

/-- `RNAdapter.logout` (adapter.ts lines 72-106). -/
def logout (env : LogoutEnv) (optRedirect : Option String) :
    Except Thrown Unit × List Event :=
  match logoutInner env optRedirect with
  | (Except.ok _, tr) => (Except.ok (), tr)
  | (Except.error t, tr) => (Except.error (wrapLogoutError t), tr)

/-- Environment for one `login` or `register` call: the client's configured
redirect URI, the URL the corresponding `create*Url` builder returns, and
collaborator behaviour.  `parseCallback` maps a callback URL to an opaque
OAuth-parameters value (modelled as `Nat`); `processCallback` consumes it. -/
structure AuthEnv where
  clientRedirectUri : Option String
  authUrl : String
  isAvailable : Bool
  openAuth : Except Thrown BrowserResult
  parseCallback : String → Nat
  processCallback : Nat → Except Thrown Unit

/-- `RNAdapter.login` (adapter.ts lines 44-70). -/
def login (env : AuthEnv) : Except Thrown Unit × List Event :=
  if env.isAvailable then
    let tr := [Event.createLoginUrl, Event.isAvailable,
      Event.openAuth env.authUrl env.clientRedirectUri]
    match env.openAuth with
    | Except.error t => (Except.error t, tr)
    | Except.ok res =>
      if res.type == "success" && jsTruthy res.url then
        let u := res.url.getD ""
        let oauth := env.parseCallback u
        (env.processCallback oauth, tr ++ [Event.parseCallback u, Event.processCallback oauth])
      else if res.type == "cancel" then
        (Except.error (Thrown.error "User has closed the browser"), tr)
      else
        (Except.error (Thrown.error "Authentication flow failed"), tr)
  else
    (Except.error (Thrown.error "InAppBrowser not available"),
      [Event.createLoginUrl, Event.isAvailable])

/-- `RNAdapter.register` (adapter.ts lines 109-131): like `login` but with no
dedicated `cancel` branch. -/
def register (env : AuthEnv) : Except Thrown Unit × List Event :=
  if env.isAvailable then
    let tr := [Event.createRegisterUrl, Event.isAvailable,
      Event.openAuth env.authUrl env.clientRedirectUri]
    match env.openAuth with
    | Except.error t => (Except.error t, tr)
    | Except.ok res =>
      if res.type == "success" && jsTruthy res.url then
        let u := res.url.getD ""
        let oauth := env.parseCallback u
        (env.processCallback oauth, tr ++ [Event.parseCallback u, Event.processCallback oauth])
      else
        (Except.error (Thrown.error "Registration flow failed"), tr)
  else
    (Except.error (Thrown.error "InAppBrowser not available"),
      [Event.createRegisterUrl, Event.isAvailable])

/-- Environment for one `accountManagement` call: the value
`createAccountUrl()` would return and how `InAppBrowser.open` would
respond. -/
structure AccountEnv where
  createAccountUrl : Option String
  openResult : Except Thrown Unit

/-- `RNAdapter.accountManagement` (adapter.ts lines 133-141).  Note the
`typeof accountUrl !== 'undefined'` test (not truthiness), and that the
failure is a thrown plain string, not an `Error`. -/
def accountManagement (env : AccountEnv) : Except Thrown Unit × List Event :=
  match env.createAccountUrl with
  | some u => (env.openResult, [Event.createAccountUrl, Event.openPlain u])
  | none => (Except.error (Thrown.plainStr "Not supported by the OIDC server"),
      [Event.createAccountUrl])

/-- An HTTP response as seen by `fetchTokens` and `refreshTokens`: the `ok`
status flag and the parsed JSON body (opaque, type `β`). -/
structure HttpResponse (β : Type) where
  ok : Bool
  body : β
deriving DecidableEq, Repr

/-- `RNAdapter.fetchTokens` (adapter.ts lines 153-167).  `resp` is how the
single `fetch` POST would resolve or reject. -/
def fetchTokens {β : Type} (tokenUrl params : String)
    (resp : Except Thrown (HttpResponse β)) : Except Thrown β × List Event :=
  let tr := [Event.httpRequest "POST" tokenUrl "application/x-www-form-urlencoded" params]
  match resp with
  | Except.error t => (Except.error t, tr)
  | Except.ok r =>
    if !r.ok then (Except.error (Thrown.error "fetchTokens failed"), tr)
    else (Except.ok r.body, tr)

/-- `RNAdapter.refreshTokens` (adapter.ts lines 169-183). -/
def refreshTokens {β : Type} (tokenUrl params : String)
    (resp : Except Thrown (HttpResponse β)) : Except Thrown β × List Event :=
  let tr := [Event.httpRequest "POST" tokenUrl "application/x-www-form-urlencoded" params]
  match resp with
  | Except.error t => (Except.error t, tr)
  | Except.ok r =>
    if !r.ok then (Except.error (Thrown.error "refreshTokens failed"), tr)
    else (Except.ok r.body, tr)

/-- The argument of `RNAdapter.redirectUri`: an options object whose
`redirectUri` field may be absent. -/
structure RedirectUriOptions where
  redirectUri : Option String
deriving DecidableEq, Repr

/-- `RNAdapter.redirectUri` (adapter.ts lines 196-206).  Both tests are JS
truthiness tests (`options && options.redirectUri`, `this.client.redirectUri`). -/
def redirectUri (clientRedirectUri : Option String)
    (options : Option RedirectUriOptions) : String :=
  match options with
  | some o =>
    if jsTruthy o.redirectUri then o.redirectUri.getD ""
    else if jsTruthy clientRedirectUri then clientRedirectUri.getD "" else ""
  | none =>
    if jsTruthy clientRedirectUri then clientRedirectUri.getD "" else ""

/-- A concrete logout environment: valid token and logout URL, browser
unavailable, generic URL opener rejects. -/
def envLogoutOpenerRejects : LogoutEnv :=
  { client := some { idToken := some "tok", redirectUri := some "app://cb" }
    createLogoutUrl := some "http://kc/out?redirect_uri=a"
    isAvailable := false
    openAuth := Except.ok { type := "success", url := none }
    openURL := Except.error (Thrown.error "No handler") }

/-- Same environment but the generic URL opener resolves. -/
def envLogoutOpenerResolves : LogoutEnv :=
  { envLogoutOpenerRejects with openURL := Except.ok () }

/-- A concrete logout environment whose client has no idToken. -/
def envLogoutNoToken : LogoutEnv :=
  { client := some { idToken := none, redirectUri := none }
    createLogoutUrl := some "http://kc/out?redirect_uri=a"
    isAvailable := true
    openAuth := Except.ok { type := "success", url := none }
    openURL := Except.ok () }

/-- A concrete login/register environment: browser available, `openAuth`
succeeds with a callback URL. -/
def envAuthSuccess : AuthEnv :=
  { clientRedirectUri := some "app://cb"
    authUrl := "http://kc/auth?redirect_uri=app"
    isAvailable := true
    openAuth := Except.ok { type := "success", url := some "app://cb?code=1" }
    parseCallback := fun s => s.length
    processCallback := fun n =>
      if n % 2 = 0 then Except.ok () else Except.error (Thrown.error "bad state") }

/-- Same environment but the user cancels the browser. -/
def envAuthCancel : AuthEnv :=
  { envAuthSuccess with openAuth := Except.ok { type := "cancel", url := none } }

/-- A concrete account-management environment with no account URL. -/
def envAccountNone : AccountEnv :=
  { createAccountUrl := none, openResult := Except.ok () }

/-- The character data of a packed string is the packed list. -/
theorem data_mk (l : List Char) : (String.mk l).data = l := rfl

/-- `List.isPrefixOf` holds of a list against itself followed by anything. -/
theorem isPrefixOf_append_self (p t : List Char) : p.isPrefixOf (p ++ t) = true := by
  induction p with
  | nil => simp [List.isPrefixOf]
  | cons a as ih => simp [List.isPrefixOf, ih]

/-- `replaceFirst` on a list that starts with the (non-empty) pattern
replaces that leading occurrence. -/
theorem replaceFirst_of_leading_pattern (pat rep t : List Char) (hp : pat ≠ []) :
    replaceFirst pat rep (pat ++ t) = rep ++ t := by
  obtain ⟨p, ps, rfl⟩ := List.exists_cons_of_ne_nil hp
  have hpre := isPrefixOf_append_self (p :: ps) t
  simp only [List.cons_append] at hpre
  simp [replaceFirst, hpre, List.drop_left]

/-- If `pat` occurs at position `s1.length` of `s1 ++ pat ++ s2` and at no
earlier position, `replaceFirst` rewrites exactly that occurrence and copies
`s2` (hence any later occurrence inside it) verbatim. -/
theorem replaceFirst_at_first_occurrence (pat rep s2 : List Char) (hp : pat ≠ []) :
    ∀ s1 : List Char,
      (∀ i, i < s1.length →
        pat.isPrefixOf (List.drop i (s1 ++ pat ++ s2)) = false) →
      replaceFirst pat rep (s1 ++ pat ++ s2) = s1 ++ rep ++ s2 := by
  intro s1
  induction s1 with
  | nil =>
    intro _
    simpa using replaceFirst_of_leading_pattern pat rep s2 hp
  | cons c cs ih =>
    intro h
    have h0 : pat.isPrefixOf (c :: (cs ++ (pat ++ s2))) = false := by
      have := h 0 (Nat.succ_pos _)
      simpa using this
    have hrec : replaceFirst pat rep (cs ++ (pat ++ s2)) = cs ++ (rep ++ s2) := by
      rw [← List.append_assoc, ← List.append_assoc]
      apply ih
      intro i hi
      have := h (i + 1) (Nat.succ_lt_succ hi)
      simpa using this
    show replaceFirst pat rep ((c :: cs) ++ pat ++ s2) = (c :: cs) ++ rep ++ s2
    simp only [List.cons_append, List.append_assoc, List.append_eq, replaceFirst, h0]
    simp [hrec]

/-- Claim C10: the logout URL rewrite replaces only the first occurrence of
the substring `redirect_uri`.  If the first occurrence sits at position
`s1.length` (no occurrence starts earlier), everything after it — including
any later `redirect_uri` occurrence inside `s2`, such as one in the redirect
URI's own value — is copied unchanged, and `&id_token_hint=<token>` is
appended. -/
theorem logout_rewrite_first_match_only (s1 s2 tok : String)
    (h : ∀ i, i < s1.data.length →
      (String.data "redirect_uri").isPrefixOf
        (List.drop i (s1.data ++ String.data "redirect_uri" ++ s2.data)) = false) :
    rewriteLogoutUrl (s1 ++ "redirect_uri" ++ s2) tok =
      (s1 ++ "post_logout_redirect_uri" ++ s2) ++ "&id_token_hint=" ++ tok := by
  have hlist := replaceFirst_at_first_occurrence (String.data "redirect_uri")
    (String.data "post_logout_redirect_uri") s2.data (by decide) s1.data h
  apply String.ext
  simp only [rewriteLogoutUrl, replaceFirstStr, String.data_append, data_mk]
  rw [hlist]

/-- Claim C10 witness: on a URL whose redirect parameter value itself
contains `redirect_uri`, only the first occurrence is rewritten. -/
theorem logout_rewrite_first_match_only_witness :
    (∀ i, i < (String.data "https://kc/out?").length →
      (String.data "redirect_uri").isPrefixOf
        (List.drop i (String.data "https://kc/out?" ++ String.data "redirect_uri"
          ++ String.data "=a&redirect_uri=b")) = false) ∧
    rewriteLogoutUrl ("https://kc/out?" ++ "redirect_uri" ++ "=a&redirect_uri=b") "t" =
      ("https://kc/out?" ++ "post_logout_redirect_uri" ++ "=a&redirect_uri=b")
        ++ "&id_token_hint=" ++ "t" :=
  ⟨by decide, logout_rewrite_first_match_only "https://kc/out?" "=a&redirect_uri=b" "t" (by decide)⟩

/-- Claim C3: when the protocol client is absent, or its idToken is absent or
empty, logout rejects (with the wrapped missing-token message) and its trace
is empty: no logout URL is constructed and no browser or URL-opener
collaborator is called. -/
theorem logout_missing_token_rejects_early (env : LogoutEnv) (optRedirect : Option String)
    (h : env.client = none ∨ ∃ c, env.client = some c ∧ jsTruthy c.idToken = false) :
    (logout env optRedirect).1 =
      Except.error (Thrown.error "Logout process failed: Keycloak instance or ID token is missing.") ∧
    (logout env optRedirect).2 = [] := by
  rcases h with h | ⟨c, hc, htok⟩
  · constructor
    · simp only [logout, logoutInner, h, wrapLogoutError]
      rfl
    · simp [logout, logoutInner, h]
  · constructor
    · simp only [logout, logoutInner, hc, htok, Bool.not_false, if_true, wrapLogoutError]
      rfl
    · simp [logout, logoutInner, hc, htok]

/-- Claim C3 witness: a client whose idToken is `undefined` makes logout
reject with an empty collaborator trace. -/
theorem logout_missing_token_rejects_early_witness :
    (logout envLogoutNoToken none).1 =
      Except.error (Thrown.error "Logout process failed: Keycloak instance or ID token is missing.") ∧
    (logout envLogoutNoToken none).2 = [] :=
  logout_missing_token_rejects_early envLogoutNoToken none
    (Or.inr ⟨{ idToken := none, redirectUri := none }, rfl, rfl⟩)

/-- Claim C4: every failure surfaced by logout is a single uniform `Error`:
its message is either `Logout process failed: <inner message>` (when the
inner failure was an `Error` carrying a message) or the generic unknown-error
message (when it was not an `Error`); no inner error escapes unwrapped. -/
theorem logout_wraps_errors (env : LogoutEnv) (optRedirect : Option String) :
    (∀ t, (logout env optRedirect).1 = Except.error t →
      ∃ m, t = Thrown.error m ∧
        ((∃ inner, m = "Logout process failed: " ++ inner) ∨
          m = "An unknown error occurred during logout.")) ∧
    (∀ m, (logoutInner env optRedirect).1 = Except.error (Thrown.error m) →
      (logout env optRedirect).1 =
        Except.error (Thrown.error ("Logout process failed: " ++ m))) ∧
    (∀ s, (logoutInner env optRedirect).1 = Except.error (Thrown.plainStr s) →
      (logout env optRedirect).1 =
        Except.error (Thrown.error "An unknown error occurred during logout.")) := by
  refine ⟨?_, ?_, ?_⟩
  · intro t ht
    rcases hinner : logoutInner env optRedirect with ⟨r, tr⟩
    rcases r with t0 | v
    · rcases t0 with m | s
      · simp only [logout, hinner, wrapLogoutError] at ht
        refine ⟨"Logout process failed: " ++ m, ?_, Or.inl ⟨m, rfl⟩⟩
        simpa using ht.symm
      · simp only [logout, hinner, wrapLogoutError] at ht
        refine ⟨"An unknown error occurred during logout.", ?_, Or.inr rfl⟩
        simpa using ht.symm
    · simp [logout, hinner] at ht
  · intro m hm
    rcases hinner : logoutInner env optRedirect with ⟨r, tr⟩
    rw [hinner] at hm
    simp only at hm
    subst hm
    simp [logout, hinner, wrapLogoutError]
  · intro s hs
    rcases hinner : logoutInner env optRedirect with ⟨r, tr⟩
    rw [hinner] at hs
    simp only at hs
    subst hs
    simp [logout, hinner, wrapLogoutError]

/-- Claim C4 witness: the missing-token failure surfaces as the uniform
wrapped error. -/
theorem logout_wraps_errors_witness :
    (logout envLogoutNoToken none).1 =
      Except.error (Thrown.error ("Logout process failed: "
        ++ "Keycloak instance or ID token is missing.")) :=
  (logout_wraps_errors envLogoutNoToken none).2.1
    "Keycloak instance or ID token is missing." rfl

/-- Claim C7: for every HTTP response, `fetchTokens` and `refreshTokens`
perform exactly one POST with a URL-encoded form body; a non-success status
rejects with the named message (`fetchTokens failed` / `refreshTokens
failed`), a success status resolves with the parsed JSON body. -/
theorem fetch_refresh_tokens_contract {β : Type} (tokenUrl params : String)
    (r : HttpResponse β) :
    fetchTokens tokenUrl params (Except.ok r) =
      ((if r.ok then Except.ok r.body
        else Except.error (Thrown.error "fetchTokens failed")),
        [Event.httpRequest "POST" tokenUrl "application/x-www-form-urlencoded" params]) ∧
    refreshTokens tokenUrl params (Except.ok r) =
      ((if r.ok then Except.ok r.body
        else Except.error (Thrown.error "refreshTokens failed")),
        [Event.httpRequest "POST" tokenUrl "application/x-www-form-urlencoded" params]) := by
  cases hr : r.ok <;> simp [fetchTokens, refreshTokens, hr]

/-- Claim C8 counterexample: with `options.redirectUri` supplied but equal to
the empty string, `redirectUri` does not return the supplied value but falls
through to the client's configured redirect URI. -/
theorem redirectUri_empty_supplied_cex :
    redirectUri (some "y") (some { redirectUri := some "" }) ≠ "" ∧
    redirectUri (some "y") (some { redirectUri := some "" }) = "y" := by
  constructor <;> decide

/-- Claim C8 (amended): `redirectUri` returns `options.redirectUri` when it
is supplied and non-empty; otherwise the client's configured redirect URI
when that is non-empty; otherwise the empty string.  In particular
`redirectUri({})` with no client redirect URI returns the empty string, and
a supplied non-empty `"x"` wins regardless of client configuration. -/
theorem redirectUri_resolution (clientR : Option String) (o : Option RedirectUriOptions) :
    (∀ opts r, o = some opts → opts.redirectUri = some r → r ≠ "" →
      redirectUri clientR o = r) ∧
    ((o = none ∨ ∃ opts, o = some opts ∧ jsTruthy opts.redirectUri = false) →
      (∀ c, clientR = some c → c ≠ "" → redirectUri clientR o = c) ∧
      (jsTruthy clientR = false → redirectUri clientR o = "")) ∧
    redirectUri clientR (some { redirectUri := some "x" }) = "x" ∧
    redirectUri none (some { redirectUri := none }) = "" := by
  have hx : jsTruthy (some "x") = true := by decide
  refine ⟨?_, ?_, by simp [redirectUri, hx], by simp [redirectUri, jsTruthy]⟩
  · intro opts r ho hr hne
    subst ho
    have htr : jsTruthy (some r) = true := by simp [jsTruthy, hne]
    simp [redirectUri, hr, htr]
  · intro ho
    constructor
    · intro c hc hcne
      subst hc
      have hct : jsTruthy (some c) = true := by simp [jsTruthy, hcne]
      rcases ho with ho | ⟨opts, ho, hfalse⟩
      · subst ho
        simp [redirectUri, hct]
      · subst ho
        simp [redirectUri, hfalse, hct]
    · intro hcfalse
      rcases ho with ho | ⟨opts, ho, hofalse⟩
      · subst ho
        simp [redirectUri, hcfalse]
      · subst ho
        simp [redirectUri, hofalse, hcfalse]

/-- Claim C8 witness: a supplied non-empty redirect URI wins over the
client's configuration. -/
theorem redirectUri_resolution_witness :
    redirectUri (some "y") (some { redirectUri := some "x" }) = "x" :=
  (redirectUri_resolution (some "y") (some { redirectUri := some "x" })).1
    { redirectUri := some "x" } "x" rfl rfl (by decide)

/-- Claim C9: when the protocol client returns no account URL,
`accountManagement` rejects with the thrown string `Not supported by the
OIDC server` and opens nothing; when it returns a URL, the adapter opens
exactly that URL as a plain in-app-browser view and propagates the outcome
of `InAppBrowser.open`. -/
theorem accountManagement_contract (env : AccountEnv) :
    (env.createAccountUrl = none →
      accountManagement env =
        (Except.error (Thrown.plainStr "Not supported by the OIDC server"),
          [Event.createAccountUrl]) ∧
      openedUrls (accountManagement env).2 = []) ∧
    (∀ u, env.createAccountUrl = some u →
      accountManagement env = (env.openResult, [Event.createAccountUrl, Event.openPlain u])) := by
  cases h : env.createAccountUrl <;> simp [accountManagement, h, openedUrls]

/-- Claim C9 witness: with no account URL, `accountManagement` rejects with
the unsupported-server message and an empty browser trace. -/
theorem accountManagement_contract_witness :
    accountManagement envAccountNone =
      (Except.error (Thrown.plainStr "Not supported by the OIDC server"),
        [Event.createAccountUrl]) :=
  ((accountManagement_contract envAccountNone).1 rfl).1

/-- Claim C1 counterexample: with a non-empty idToken, a produced logout URL,
and an unavailable in-app browser, the generic URL opener's outcome IS
observed (the call is awaited): when it rejects, `clearToken` is never
called and logout rejects with the wrapped failure — contrary to the claim
that the delegation is fire-and-forget and `clearToken` is called
unconditionally. -/
theorem logout_unavailable_fireforget_cex :
    envLogoutOpenerRejects.isAvailable = false ∧
    Event.openURL (rewriteLogoutUrl "http://kc/out?redirect_uri=a" "tok")
        ∈ (logout envLogoutOpenerRejects none).2 ∧
    Event.clearToken ∉ (logout envLogoutOpenerRejects none).2 ∧
    (logout envLogoutOpenerRejects none).1 =
      Except.error (Thrown.error "Logout process failed: No handler") := by
  decide

/-- Claim C1 (amended): when the client holds a non-empty idToken, a logout
URL is produced, and the in-app browser is unavailable, logout delegates the
rewritten URL to the generic URL opener and awaits it: if the opener
resolves, `clearToken` is then called and logout resolves; if the opener
rejects, `clearToken` is not called and logout rejects with the wrapped
failure. -/
theorem logout_unavailable_awaits_opener (env : LogoutEnv) (optRedirect : Option String)
    (c : LogoutClient) (tok u : String)
    (hc : env.client = some c) (ht : c.idToken = some tok) (ht2 : tok ≠ "")
    (hu : env.createLogoutUrl = some u) (hu2 : u ≠ "")
    (hav : env.isAvailable = false) :
    Event.openURL (rewriteLogoutUrl u tok) ∈ (logout env optRedirect).2 ∧
    (env.openURL = Except.ok () →
      (logout env optRedirect).1 = Except.ok () ∧
      Event.clearToken ∈ (logout env optRedirect).2) ∧
    (∀ t, env.openURL = Except.error t →
      Event.clearToken ∉ (logout env optRedirect).2 ∧
      (logout env optRedirect).1 = Except.error (wrapLogoutError t)) := by
  have htb : jsTruthy (some tok) = true := by simp [jsTruthy, ht2]
  have hub : jsTruthy (some u) = true := by simp [jsTruthy, hu2]
  rcases hou : env.openURL with t | v
  · refine ⟨?_, ?_, ?_⟩
    · simp [logout, logoutInner, hc, ht, hu, htb, hub, hav, hou]
    · intro hok
      simp at hok
    · intro t2 ht2x
      injection ht2x with ht3
      subst ht3
      constructor
      · simp [logout, logoutInner, hc, ht, hu, htb, hub, hav, hou]
      · simp [logout, logoutInner, hc, ht, hu, htb, hub, hav, hou]
  · refine ⟨?_, ?_, ?_⟩
    · simp [logout, logoutInner, hc, ht, hu, htb, hub, hav, hou]
    · intro _
      constructor <;> simp [logout, logoutInner, hc, ht, hu, htb, hub, hav, hou]
    · intro t2 ht2x
      simp at ht2x

/-- Claim C1 witness (amended claim): when the generic URL opener resolves,
logout opens the rewritten URL, calls `clearToken`, and resolves. -/
theorem logout_unavailable_awaits_opener_witness :
    Event.openURL (rewriteLogoutUrl "http://kc/out?redirect_uri=a" "tok")
        ∈ (logout envLogoutOpenerResolves none).2 ∧
    (logout envLogoutOpenerResolves none).1 = Except.ok () ∧
    Event.clearToken ∈ (logout envLogoutOpenerResolves none).2 := by
  have h := logout_unavailable_awaits_opener envLogoutOpenerResolves none
    { idToken := some "tok", redirectUri := some "app://cb" }
    "tok" "http://kc/out?redirect_uri=a" rfl rfl (by decide) rfl (by decide) rfl
  exact ⟨h.1, h.2.1 rfl⟩

/-- Claim C2: whenever logout holds a client with a non-empty idToken and a
logout URL is produced, the single URL handed to a browser or URL-opener
collaborator — on both the available and the unavailable branch — is that
URL with its first `redirect_uri` replaced by `post_logout_redirect_uri`
and the query parameter `&id_token_hint=<idToken>` appended. -/
theorem logout_opens_rewritten_url (env : LogoutEnv) (optRedirect : Option String)
    (c : LogoutClient) (tok u : String)
    (hc : env.client = some c) (ht : c.idToken = some tok) (ht2 : tok ≠ "")
    (hu : env.createLogoutUrl = some u) (hu2 : u ≠ "") :
    openedUrls (logout env optRedirect).2 =
      [replaceFirstStr u "redirect_uri" "post_logout_redirect_uri"
        ++ "&id_token_hint=" ++ tok] := by
  have htb : jsTruthy (some tok) = true := by simp [jsTruthy, ht2]
  have hub : jsTruthy (some u) = true := by simp [jsTruthy, hu2]
  have hre : rewriteLogoutUrl u tok =
      replaceFirstStr u "redirect_uri" "post_logout_redirect_uri"
        ++ "&id_token_hint=" ++ tok := rfl
  cases hav : env.isAvailable
  · rcases hou : env.openURL with t | v <;>
      simp [logout, logoutInner, hc, ht, hu, htb, hub, hav, hou, openedUrls, hre]
  · rcases hoa : env.openAuth with t | res
    · simp [logout, logoutInner, hc, ht, hu, htb, hub, hav, hoa, openedUrls, hre]
    · cases h1 : (res.type == "success")
      · cases h2 : (res.type == "cancel" || res.type == "dismiss")
        · simp [logout, logoutInner, hc, ht, hu, htb, hub, hav, hoa, h1, h2, openedUrls, hre]
        · simp [logout, logoutInner, hc, ht, hu, htb, hub, hav, hoa, h1, h2, openedUrls, hre]
      · simp [logout, logoutInner, hc, ht, hu, htb, hub, hav, hoa, h1, openedUrls, hre]

/-- Claim C2 witness: a concrete logout call opens exactly the rewritten
URL. -/
theorem logout_opens_rewritten_url_witness :
    openedUrls (logout envLogoutOpenerRejects none).2 =
      [replaceFirstStr "http://kc/out?redirect_uri=a" "redirect_uri" "post_logout_redirect_uri"
        ++ "&id_token_hint=" ++ "tok"] :=
  logout_opens_rewritten_url envLogoutOpenerRejects none
    { idToken := some "tok", redirectUri := some "app://cb" }
    "tok" "http://kc/out?redirect_uri=a" rfl rfl (by decide) rfl (by decide)

/-- Claim C5: for every `success` browser outcome carrying a URL during login
or register, the adapter calls the callback parser with exactly that URL,
hands the parsed value to the callback processor, and propagates the
processor's outcome as its own. -/
theorem auth_success_routes_callback (env : AuthEnv) (res : BrowserResult) (u : String)
    (hav : env.isAvailable = true) (hoa : env.openAuth = Except.ok res)
    (htype : res.type = "success") (hurl : res.url = some u) (hu : u ≠ "") :
    ((login env).1 = env.processCallback (env.parseCallback u) ∧
      (login env).2 = [Event.createLoginUrl, Event.isAvailable,
        Event.openAuth env.authUrl env.clientRedirectUri,
        Event.parseCallback u, Event.processCallback (env.parseCallback u)]) ∧
    ((register env).1 = env.processCallback (env.parseCallback u) ∧
      (register env).2 = [Event.createRegisterUrl, Event.isAvailable,
        Event.openAuth env.authUrl env.clientRedirectUri,
        Event.parseCallback u, Event.processCallback (env.parseCallback u)]) := by
  have hub : jsTruthy (some u) = true := by simp [jsTruthy, hu]
  refine ⟨⟨?_, ?_⟩, ?_, ?_⟩ <;>
    simp [login, register, hav, hoa, hurl, htype, hub]

/-- Claim C5 witness: a concrete successful login routes the callback URL
through parser and processor and returns the processor's outcome. -/
theorem auth_success_routes_callback_witness :
    (login envAuthSuccess).1 =
      envAuthSuccess.processCallback (envAuthSuccess.parseCallback "app://cb?code=1") ∧
    Event.parseCallback "app://cb?code=1" ∈ (login envAuthSuccess).2 := by
  have h := auth_success_routes_callback envAuthSuccess
    { type := "success", url := some "app://cb?code=1" } "app://cb?code=1"
    rfl rfl rfl rfl (by decide)
  refine ⟨h.1.1, ?_⟩
  rw [h.1.2]
  simp

/-- Claim C6: a `cancel` browser outcome rejects login with the
user-cancellation message, but rejects register with the generic
registration-failure message — cancellation is not distinguished there. -/
theorem cancel_asymmetry_login_register (env : AuthEnv) (res : BrowserResult)
    (hav : env.isAvailable = true) (hoa : env.openAuth = Except.ok res)
    (htype : res.type = "cancel") :
    (login env).1 = Except.error (Thrown.error "User has closed the browser") ∧
    (register env).1 = Except.error (Thrown.error "Registration flow failed") := by
  have hsucc : (res.type == "success") = false := by
    rw [htype]
    decide
  have hcanc : (res.type == "cancel") = true := by
    rw [htype]
    decide
  constructor <;> simp [login, register, hav, hoa, hsucc, hcanc]

/-- Claim C6 witness: the asymmetry on a concrete cancel outcome. -/
theorem cancel_asymmetry_login_register_witness :
    (login envAuthCancel).1 = Except.error (Thrown.error "User has closed the browser") ∧
    (register envAuthCancel).1 = Except.error (Thrown.error "Registration flow failed") :=
  cancel_asymmetry_login_register envAuthCancel
    { type := "cancel", url := none } rfl rfl rfl

end RNKeycloak
